import Mathlib

/-!
Verification of the deep-agent glue layer (src/deep_agent/agent.py).

The module wires a chat model, a web-search tool and a system prompt into an
external agent framework and exposes a CLI read-loop.  We embed the
repository's own code shallowly:

  * the process environment is an association list of string pairs;
  * the hidden-input prompt (getpass) is a parameter carrying the line the
    operator would type, together with a count of how many prompts occurred;
  * the external framework objects (Tavily client, chat model, deep agent)
    are opaque function parameters;
  * standard input is a list of lines, printed output a list of events.
-/

deriving instance DecidableEq for Except

namespace DeepAgent

/-- The process environment: an association list, first binding wins
(models os.environ / os.getenv). -/
abbrev Env := List (String × String)

/-- os.getenv: first binding for the name, if any. -/
def getenv (env : Env) (name : String) : Option String :=
  (env.find? fun p => p.1 == name).map fun p => p.2

/-- Python str.strip(): drop whitespace from both ends. -/
def pyStrip (s : String) : String :=
  ⟨(((s.data.dropWhile Char.isWhitespace).reverse.dropWhile Char.isWhitespace).reverse)⟩

/-- Python str.lower(): lowercase every character. -/
def pyLower (s : String) : String :=
  ⟨s.data.map Char.toLower⟩

/-- Python truthiness of an optional string: present and non-empty. -/
def env_truthy (v : Option String) : Bool :=
  match v with
  | some s => s != ""
  | none => false

/-- The branch of _require_env taken when the variable is absent or empty:
either fail (prompting disallowed), or prompt once via getpass, strip the
entered line, fail on an empty result, otherwise store it in os.environ and
return it.  The Nat counts getpass prompts. -/
def require_env_missing (env : Env) (var_name : String) (prompt_if_missing : Bool)
    (getpass_input : String) : Except String String × Env × Nat :=
  if !prompt_if_missing then
    (Except.error (var_name ++ " must be set in the environment variables."), env, 0)
  else
    let entered := pyStrip getpass_input
    if entered == "" then
      (Except.error (var_name ++ " is required."), env, 1)
    else
      (Except.ok entered, (var_name, entered) :: env, 1)

/-- _require_env: return the environment variable if set and non-empty,
otherwise fall through to the missing-variable branch. -/
def require_env (env : Env) (var_name : String) (prompt_if_missing : Bool)
    (getpass_input : String) : Except String String × Env × Nat :=
  match getenv env var_name with
  | some v =>
    if v != "" then (Except.ok v, env, 0)
    else require_env_missing env var_name prompt_if_missing getpass_input
  | none => require_env_missing env var_name prompt_if_missing getpass_input

/-- The search topic literal type of the adapter (Literal in the source). -/
inductive SearchTopic where
  | general
  | news
  | finance
deriving DecidableEq, Repr

/-- The four arguments the adapter passes to TavilyClient.search. -/
structure SearchArgs where
  query : String
  max_results : Int
  topic : SearchTopic
  include_raw_content : Bool
deriving DecidableEq, Repr

/-- build_internet_search_tool: wraps an opaque search client into the
callable handed to the framework; the callable forwards its four arguments
to the client and returns the client response as is. -/
def build_internet_search_tool {α : Type} (client : SearchArgs → α) :
    String → Int → SearchTopic → Bool → α :=
  fun query max_results topic include_raw_content =>
    client ⟨query, max_results, topic, include_raw_content⟩

/-- The adapter applied at its declared default arguments
(max_results = 5, topic = general, include_raw_content = false). -/
def internet_search_defaults {α : Type} (client : SearchArgs → α) (query : String) : α :=
  build_internet_search_tool client query 5 SearchTopic.general false

/-- A message of the framework conversation (role plus textual content). -/
structure Message where
  role : String
  content : String
deriving DecidableEq, Repr

/-- The framework result of agent.invoke: a dict that may or may not carry a
"messages" entry, plus opaque further entries. -/
structure AgentResult where
  messages : Option (List Message)
  extra : List (String × String)
deriving DecidableEq, Repr

/-- An agent instance: opaque map from an input conversation to a result. -/
abbrev Agent := List Message → AgentResult

/-- The single-element conversation run_research_query sends. -/
def user_message (question : String) : Message :=
  ⟨"user", question⟩

/-- The tail of run_research_query: messages = result.get("messages", []);
if messages is non-empty return the content of its last element, else return
the result object itself. -/
def extract_response (result : AgentResult) : String ⊕ AgentResult :=
  let messages := result.messages.getD []
  match messages.getLast? with
  | some m => Sum.inl m.content
  | none => Sum.inr result

/-- build_research_agent: resolve TAVILY_API_KEY (never prompting) and
GOOGLE_API_KEY (prompting per the configuration flag), then let the external
framework produce the agent.  create_agent stands for the composition of
TavilyClient, ChatGoogleGenerativeAI and create_deep_agent.  On success the
pair of Nats counts (credential resolutions, getpass prompts). -/
structure ResearchAgentConfig where
  model : String
  system_prompt : String
  prompt_for_google_key : Bool
deriving DecidableEq, Repr

def build_research_agent (create_agent : String → ResearchAgentConfig → Agent)
    (env : Env) (getpass_input : String) (config : ResearchAgentConfig) :
    Except String (Agent × Env × Nat × Nat) :=
  match require_env env "TAVILY_API_KEY" false getpass_input with
  | (Except.error e, _, _) => Except.error e
  | (Except.ok tavily_key, env1, p1) =>
    match require_env env1 "GOOGLE_API_KEY" config.prompt_for_google_key getpass_input with
    | (Except.error e, _, _) => Except.error e
    | (Except.ok _, env2, p2) =>
      Except.ok (create_agent tavily_key config, env2, 2, p1 + p2)

/-- Observable outcome of one run_research_query call: the returned value,
the final environment, and counts of agent builds, credential resolutions
and getpass prompts. -/
structure RunOut where
  response : String ⊕ AgentResult
  env : Env
  builds : Nat
  resolutions : Nat
  prompts : Nat
deriving DecidableEq

/-- run_research_query: use the supplied agent if any, otherwise build one;
invoke it on a single user message and extract the response. -/
def run_research_query (create_agent : String → ResearchAgentConfig → Agent)
    (env : Env) (getpass_input : String) (agentOpt : Option Agent)
    (config : ResearchAgentConfig) (question : String) : Except String RunOut :=
  match agentOpt with
  | some agent =>
    Except.ok ⟨extract_response (agent [user_message question]), env, 0, 0, 0⟩
  | none =>
    match build_research_agent create_agent env getpass_input config with
    | Except.error e => Except.error e
    | Except.ok (agent, env1, res, prompts) =>
      Except.ok ⟨extract_response (agent [user_message question]), env1, 1, res, prompts⟩

/-- The default system prompt string of the module. -/
def DEFAULT_SYSTEM_PROMPT : String :=
  "You are an expert researcher. Your job is to conduct thorough research and then write a polished report.\n\nYou have access to an internet search tool as your primary means of gathering information.\n\n## `internet_search`\n\nUse this to run an internet search for a given query. You can specify the max number of results to return, the topic, and whether raw content should be included.\n"

/-- The parsed command line: optional positional question, --model value,
optional --system-prompt value, and the --no-google-prompt flag. -/
structure CliArgs where
  question : Option String
  model : String
  system_prompt : Option String
  no_google_prompt : Bool
deriving DecidableEq

/-- The configuration main builds from the parsed arguments; the system
prompt uses Python or-semantics, so a missing or empty override falls back
to the default prompt. -/
def configFromArgs (args : CliArgs) : ResearchAgentConfig :=
  { model := args.model
    system_prompt :=
      match args.system_prompt with
      | some s => if s == "" then DEFAULT_SYSTEM_PROMPT else s
      | none => DEFAULT_SYSTEM_PROMPT
    prompt_for_google_key := !args.no_google_prompt }

/-- One printed event of the CLI loop: the empty-question reminder, a query
response, or the 40-dash separator line. -/
inductive CliOutput where
  | reminder
  | response (text : String)
  | separator
deriving DecidableEq, Repr

/-- Outcome of a terminating CLI run: exit code, printed events, and the
questions dispatched to the query runner, in order. -/
structure CliRun where
  exitCode : Int
  output : List CliOutput
  queries : List String
deriving DecidableEq

/-- The quit test of the loop: question.lower() in the set of quit words. -/
def is_quit (q : String) : Bool :=
  pyLower q == "quit" || pyLower q == "exit"

/-- The interactive part of the CLI loop, driven by the remaining stdin
lines (each read is stripped on entry).  none models stdin exhaustion (the
EOFError of input() propagating out of main). -/
def cliLoopStdin (runQuery : String → String) :
    List String → Option (List CliOutput × List String)
  | [] => none
  | line :: rest =>
    let q := pyStrip line
    if is_quit q then some ([], [])
    else if q == "" then
      (cliLoopStdin runQuery rest).map fun pr => (CliOutput.reminder :: pr.1, pr.2)
    else
      (cliLoopStdin runQuery rest).map fun pr =>
        (CliOutput.response (runQuery q) :: CliOutput.separator :: pr.1, q :: pr.2)

/-- The loop of main: an empty positional question is falsy, so the loop
prompts immediately; a non-empty positional question is checked against the
quit words without stripping, and otherwise dispatched; afterwards the loop
always reads from stdin.  A terminating run returns exit code 0. -/
def cliMain (runQuery : String → String) (positional : Option String)
    (stdin : List String) : Option CliRun :=
  let looped : Option (List CliOutput × List String) :=
    match positional with
    | some q =>
      if q == "" then cliLoopStdin runQuery stdin
      else if is_quit q then some ([], [])
      else
        (cliLoopStdin runQuery stdin).map fun pr =>
          (CliOutput.response (runQuery q) :: CliOutput.separator :: pr.1, q :: pr.2)
    | none => cliLoopStdin runQuery stdin
  looped.map fun pr => ⟨0, pr.1, pr.2⟩

/-- Claim C1: with a non-empty messages sequence in the framework result,
run_research_query returns the content of the last message; with an empty
messages sequence it returns the result object itself, unchanged. -/
theorem claim_C1 (create_agent : String → ResearchAgentConfig → Agent) (env : Env)
    (gp : String) (agent : Agent) (config : ResearchAgentConfig) (question : String)
    (result : AgentResult) (hres : agent [user_message question] = result) :
    (∀ last rest, result.messages.getD [] = rest ++ [last] →
      run_research_query create_agent env gp (some agent) config question =
        Except.ok ⟨Sum.inl last.content, env, 0, 0, 0⟩) ∧
    (result.messages.getD [] = [] →
      run_research_query create_agent env gp (some agent) config question =
        Except.ok ⟨Sum.inr result, env, 0, 0, 0⟩) := by
  constructor
  · intro last rest hms
    simp [run_research_query, extract_response, hres, hms]
  · intro hms
    simp [run_research_query, extract_response, hres, hms]

/-- Witness for C1 at messages = [user "Q", assistant "A"]: the runner
returns "A". -/
theorem claim_C1_witness :
    run_research_query (fun _ _ _ => ⟨some [], []⟩) [] ""
        (some fun _ => ⟨some [⟨"user", "Q"⟩, ⟨"assistant", "A"⟩], []⟩)
        ⟨"m", "s", true⟩ "Q" =
      Except.ok ⟨Sum.inl "A", [], 0, 0, 0⟩ :=
  (claim_C1 (fun _ _ _ => ⟨some [], []⟩) [] ""
      (fun _ => ⟨some [⟨"user", "Q"⟩, ⟨"assistant", "A"⟩], []⟩)
      ⟨"m", "s", true⟩ "Q" ⟨some [⟨"user", "Q"⟩, ⟨"assistant", "A"⟩], []⟩ rfl).1
    ⟨"assistant", "A"⟩ [⟨"user", "Q"⟩] rfl

/-- Claim C2: the search adapter forwards its four arguments (query,
max_results, topic, include_raw_content) to the underlying client unchanged
and returns the client response itself; its declared defaults are
max_results = 5, topic = general, include_raw_content = false. -/
theorem claim_C2 {α : Type} (client : SearchArgs → α) (query : String)
    (max_results : Int) (topic : SearchTopic) (include_raw_content : Bool) :
    build_internet_search_tool client query max_results topic include_raw_content =
        client ⟨query, max_results, topic, include_raw_content⟩ ∧
    internet_search_defaults client query =
        client ⟨query, 5, SearchTopic.general, false⟩ :=
  ⟨rfl, rfl⟩

/-- Claim C3: for a missing (or empty) variable with prompting enabled and a
non-empty stripped entered value, the resolver returns the entered value,
after one prompt, and the environment subsequently contains it. -/
theorem claim_C3 (env : Env) (var_name : String) (gp : String)
    (hmiss : env_truthy (getenv env var_name) = false)
    (hne : pyStrip gp ≠ "") :
    require_env env var_name true gp =
        (Except.ok (pyStrip gp), (var_name, pyStrip gp) :: env, 1) ∧
    getenv ((var_name, pyStrip gp) :: env) var_name = some (pyStrip gp) := by
  constructor
  · unfold require_env
    cases hg : getenv env var_name with
    | none => simp [require_env_missing, hne]
    | some v =>
      rw [hg] at hmiss
      simp [env_truthy] at hmiss
      simp [hmiss, require_env_missing, hne]
  · simp [getenv]

/-- Witness for C3 at an absent GOOGLE_API_KEY and entered line " secret ". -/
theorem claim_C3_witness :
    require_env [] "GOOGLE_API_KEY" true " secret " =
        (Except.ok "secret", [("GOOGLE_API_KEY", "secret")], 1) ∧
    getenv [("GOOGLE_API_KEY", "secret")] "GOOGLE_API_KEY" = some "secret" :=
  claim_C3 [] "GOOGLE_API_KEY" " secret " (by decide) (by decide)

/-- Counterexample for C4: the positional argument "quit " has trimmed,
case-insensitive form "quit", yet the loop dispatches it to the query runner
instead of terminating (positional input is checked without trimming). -/
theorem claim_C4_counterexample :
    pyLower (pyStrip "quit ") = "quit" ∧
    cliMain (fun _ => "response") (some "quit ") ["quit"] =
      some ⟨0, [CliOutput.response "response", CliOutput.separator], ["quit "]⟩ :=
  ⟨by decide, by decide⟩

/-- Claim C4 (amended): an interactive line whose stripped, case-insensitive
form is a quit word, or a positional argument whose case-insensitive form is
a quit word without stripping, terminates the loop with exit code 0, no
printed output and no query-runner invocation. -/
theorem claim_C4 (runQuery : String → String) (line : String) (rest : List String)
    (positional : String) (stdin : List String)
    (hline : is_quit (pyStrip line) = true) (hpos : is_quit positional = true) :
    cliMain runQuery none (line :: rest) = some ⟨0, [], []⟩ ∧
    cliMain runQuery (some positional) stdin = some ⟨0, [], []⟩ := by
  constructor
  · simp [cliMain, cliLoopStdin, hline]
  · have hne : (positional == "") = false := by
      cases h : positional == "" with
      | true =>
        have hp : positional = "" := by simpa using h
        rw [hp] at hpos
        exact absurd hpos (by decide)
      | false => rfl
    simp [cliMain, hne, hpos]

/-- Witness for C4 at interactive line " QUIT " and positional "Exit". -/
theorem claim_C4_witness :
    cliMain (fun q => q) none [" QUIT ", "x"] = some ⟨0, [], []⟩ ∧
    cliMain (fun q => q) (some "Exit") ["x"] = some ⟨0, [], []⟩ :=
  claim_C4 (fun q => q) " QUIT " ["x"] "Exit" ["x"] (by decide) (by decide)

/-- Counterexample for C5: when the supplied --system-prompt value is the
empty string, the configuration does not carry that value but falls back to
the default prompt (Python or-semantics in main). -/
theorem claim_C5_counterexample :
    (configFromArgs ⟨none, "gemini-2.5-flash-lite", some "", false⟩).system_prompt ≠ "" ∧
    (configFromArgs ⟨none, "gemini-2.5-flash-lite", some "", false⟩).system_prompt =
      DEFAULT_SYSTEM_PROMPT :=
  ⟨by decide, rfl⟩

/-- Claim C5 (amended): every non-empty value supplied via --system-prompt
becomes, exactly, the system prompt of the configuration main builds. -/
theorem claim_C5 (q : Option String) (m : String) (s : String) (ng : Bool)
    (hs : s ≠ "") :
    (configFromArgs ⟨q, m, some s, ng⟩).system_prompt = s := by
  simp [configFromArgs, hs]

/-- Witness for C5 at the override value "You are terse.". -/
theorem claim_C5_witness :
    (configFromArgs ⟨none, "gemini-2.5-flash-lite", some "You are terse.", false⟩).system_prompt =
      "You are terse." :=
  claim_C5 none "gemini-2.5-flash-lite" "You are terse." false (by decide)

/-- Claim C6: a variable present and non-empty in the environment is
returned unchanged, with no prompt and the environment untouched, whatever
the prompting flag. -/
theorem claim_C6 (env : Env) (var_name : String) (flag : Bool) (gp : String)
    (v : String) (hv : getenv env var_name = some v) (hne : v ≠ "") :
    require_env env var_name flag gp = (Except.ok v, env, 0) := by
  unfold require_env
  rw [hv]
  simp [hne]

/-- Witness for C6 at TAVILY_API_KEY = "k" with prompting enabled. -/
theorem claim_C6_witness :
    require_env [("TAVILY_API_KEY", "k")] "TAVILY_API_KEY" true "typed" =
      (Except.ok "k", [("TAVILY_API_KEY", "k")], 0) :=
  claim_C6 [("TAVILY_API_KEY", "k")] "TAVILY_API_KEY" true "typed" "k" rfl (by decide)

/-- Claim C7: for an absent-or-empty variable with prompting disallowed, the
resolver fails with the configuration error naming the variable, with no
prompt and the environment untouched. -/
theorem claim_C7 (env : Env) (var_name : String) (gp : String)
    (hmiss : env_truthy (getenv env var_name) = false) :
    require_env env var_name false gp =
      (Except.error (var_name ++ " must be set in the environment variables."), env, 0) := by
  unfold require_env
  cases hg : getenv env var_name with
  | none => simp [require_env_missing]
  | some v =>
    rw [hg] at hmiss
    simp [env_truthy] at hmiss
    simp [hmiss, require_env_missing]

/-- Witness for C7 at a GOOGLE_API_KEY set to the empty string. -/
theorem claim_C7_witness :
    require_env [("GOOGLE_API_KEY", "")] "GOOGLE_API_KEY" false "zzz" =
      (Except.error "GOOGLE_API_KEY must be set in the environment variables.",
        [("GOOGLE_API_KEY", "")], 0) :=
  claim_C7 [("GOOGLE_API_KEY", "")] "GOOGLE_API_KEY" "zzz" (by decide)

/-- Claim C8: for a missing variable with prompting enabled and an entered
line that strips to empty, the resolver fails after exactly one prompt and
writes nothing into the environment. -/
theorem claim_C8 (env : Env) (var_name : String) (gp : String)
    (hmiss : env_truthy (getenv env var_name) = false)
    (hempty : pyStrip gp = "") :
    require_env env var_name true gp =
      (Except.error (var_name ++ " is required."), env, 1) := by
  unfold require_env
  cases hg : getenv env var_name with
  | none => simp [require_env_missing, hempty]
  | some v =>
    rw [hg] at hmiss
    simp [env_truthy] at hmiss
    simp [hmiss, require_env_missing, hempty]

/-- Witness for C8 at an absent GOOGLE_API_KEY and whitespace-only entry. -/
theorem claim_C8_witness :
    require_env [] "GOOGLE_API_KEY" true "   " =
      (Except.error "GOOGLE_API_KEY is required.", [], 1) :=
  claim_C8 [] "GOOGLE_API_KEY" "   " (by decide) (by decide)

/-- Claim C9: with no positional question and the interactive input sequence
["", "quit"], the loop prints exactly one reminder, dispatches no query, and
exits with status 0. -/
theorem claim_C9 (runQuery : String → String) :
    cliMain runQuery none ["", "quit"] = some ⟨0, [CliOutput.reminder], []⟩ :=
  rfl

/-- Claim C10: with a caller-supplied agent, run_research_query builds no
agent, resolves no credential, prompts nobody, and leaves the environment
exactly as it was. -/
theorem claim_C10 (create_agent : String → ResearchAgentConfig → Agent) (env : Env)
    (gp : String) (agent : Agent) (config : ResearchAgentConfig) (question : String) :
    run_research_query create_agent env gp (some agent) config question =
      Except.ok ⟨extract_response (agent [user_message question]), env, 0, 0, 0⟩ :=
  rfl

end DeepAgent
